import Mathlib

/-
Verification of the NGS_LCCA_Pipelines control layer.

The development shallowly embeds the three Python scripts:
  align_reads_zhengu_20180103.py
  germline_variant_calling_GATK_zhengu_20180103.py
  genotype_joining_GATK_zhengu_20171211.py

Modelling conventions:
* The filesystem is a pair of lists of existing file paths and directory
  paths; os.path.isfile and os.path.exists become membership tests.
* A log call logger.info(fmt, a1, ...) / logger.error(fmt, a1, ...) is
  recorded as the pair (fmt, [a1, ...]); rendering by logging.Formatter is
  outside the embedded code.  print calls are recorded the same way.
* An external child process is abstracted by the ordered list of lines it
  writes, each tagged with the stream it was written to, plus its exit
  code.  Stage functions take an oracle assigning a child behaviour to
  every command string.
* Each stage function returns a Trace: directories created, external
  commands issued in order, the two log channels, the printed messages,
  and the Python return value (none models the Python value None, which
  is what a function body without a return value produces).
-/

namespace NGS

/-- FS models the relevant state of the filesystem: the set of existing
regular files and the set of existing directories, as lists of paths. -/
structure FS where
  files : List String
  dirs : List String

/-- Model of os.path.isfile. -/
def FS.isfile (fs : FS) (p : String) : Bool := fs.files.contains p

/-- Model of os.path.exists: true for an existing directory or file. -/
def FS.existsPath (fs : FS) (p : String) : Bool :=
  fs.dirs.contains p || fs.files.contains p

/-- Python-style substring split over character lists: splits at each
non-overlapping occurrence of the separator, scanning left to right.
The Nat argument is a fuel bound (any bound at least the input length
gives the separator-consuming recursion a structural measure). -/
def splitOnCharsFuel (sep : List Char) : Nat → List Char → List Char → List (List Char)
  | _, acc, [] => [acc.reverse]
  | 0, acc, rest => [acc.reverse ++ rest]
  | fuel + 1, acc, c :: rest =>
    if sep.isPrefixOf (c :: rest) then
      acc.reverse :: splitOnCharsFuel sep fuel [] (rest.drop (sep.length - 1))
    else
      splitOnCharsFuel sep fuel (c :: acc) rest

/-- Model of the Python two-argument str.split(sep). -/
def pySplitOn (s sep : String) : List String :=
  (splitOnCharsFuel sep.data (s.data.length + 1) [] s.data).map String.mk

/-- Whitespace-run split over character lists, discarding empty fields. -/
def wsSplitChars : List Char → List Char → List (List Char)
  | [], acc => if acc.isEmpty then [] else [acc.reverse]
  | c :: rest, acc =>
    if c.isWhitespace then
      if acc.isEmpty then wsSplitChars rest []
      else acc.reverse :: wsSplitChars rest []
    else wsSplitChars rest (c :: acc)

/-- Whether the first character of s is c (Python s[0] == c on a
nonempty string). -/
def firstCharIs (s : String) (c : Char) : Bool :=
  match s.data with
  | [] => false
  | d :: _ => d = c

/-- Separator join (Python sep.join(parts)). -/
def joinSep (sep : String) : List String → String
  | [] => ""
  | [x] => x
  | x :: y :: rest => x ++ sep ++ joinSep sep (y :: rest)

/-- Model of os.path.dirname for forward-slash paths. -/
def dirname (p : String) : String :=
  let parts := pySplitOn p "/"
  if parts.length ≤ 1 then "" else joinSep "/" parts.dropLast

/-- A logging or print call: the format string together with the argument
list passed alongside it (logging.Formatter rendering is external). -/
abbrev LogEntry := String × List String

/-- The stream a child-process write went to. -/
inductive Chan where
  | out
  | err
deriving DecidableEq

/-- Observable behaviour of one external child process: the lines it
writes, in write order, each tagged with its stream, and its exit code. -/
structure Child where
  writes : List (Chan × String)
  exitCode : Int

/-- Since run_shell_command passes stderr=subprocess.STDOUT, the lines the
child writes to standard error are redirected into the standard-output
pipe: the captured stdout is every write, in write order, whatever stream
it was addressed to. -/
def capturedStdout (child : Child) : List String :=
  child.writes.map Prod.snd

/-- With stderr=subprocess.STDOUT, subprocess.run captures no separate
stderr stream: CompletedProcess.stderr is None for every child. -/
def capturedStderr (_child : Child) : Option (List String) := none

/-- Result of one run_shell_command call: the lines sent to the
informational logger, the lines sent to the error logger, and the
returned exit code. -/
structure RunOut where
  infoLines : List LogEntry
  errLines : List LogEntry
  ret : Int

/-- Model of run_shell_command (identical in the germline-calling and the
genotype-joining scripts): logs the command line to the informational
logger, runs the child, forwards every captured stdout line to the
informational logger and every captured stderr line to the error logger
(the latter list is always empty, because CompletedProcess.stderr is
None under stderr=subprocess.STDOUT), and returns the exit code
verbatim. -/
def run_shell_command (command_line : String) (child : Child) : RunOut :=
  let stdoutLines := capturedStdout child
  let errList := match capturedStderr child with
    | some ls => ls.map (fun l => (l, ([] : List String)))
    | none => []
  { infoLines := (command_line, []) :: stdoutLines.map (fun l => (l, [])),
    errLines := errList,
    ret := child.exitCode }

/-- Observable effects of one stage function call. -/
structure Trace where
  dirsMade : List String
  invocations : List String
  infoLog : List LogEntry
  errLog : List LogEntry
  printed : List LogEntry
  ret : Option Int

/- ------------------------------------------------------------------ -/
/- align_reads_zhengu_20180103.py                                      -/
/- ------------------------------------------------------------------ -/

/-- The fixed suffix set of BWA index artifacts checked before alignment
(index_files_extensions in align_reads_bwa). -/
def index_files_extensions : List String := [".pac", ".amb", ".ann", ".bwt", ".sa"]

/-- The genome_indexed flag of align_reads_bwa: true iff every expected
index file exists (the source loop clears the flag and breaks at the
first missing file, which computes the same value). -/
def genomeIndexed (fs : FS) (ref_index_name : String) : Bool :=
  index_files_extensions.all (fun extn => fs.isfile (ref_index_name ++ extn))

/-- The bwa index command string built by align_reads_bwa. -/
def bwa_index_command (bwa_dir ref_index_name ref_fa_file : String) : String :=
  bwa_dir ++ " index -p " ++ ref_index_name ++ " " ++ ref_fa_file

/-- The pieces concatenated into the bwa mem command of align_reads_bwa,
kept as a list so that which argument strings the command references is
directly observable. -/
def bwa_align_pieces (bwa_dir n_threads read_group ref_index_name read1 read2 out_file : String) :
    List String :=
  [bwa_dir, " mem -t ", n_threads, " -M -R ", read_group, " ", ref_index_name,
   " ", read1, " ", read2, " > ", out_file]

/-- The bwa mem command string built by align_reads_bwa. -/
def bwa_align_command (bwa_dir n_threads read_group ref_index_name read1 read2 out_file : String) :
    String :=
  String.join (bwa_align_pieces bwa_dir n_threads read_group ref_index_name read1 read2 out_file)

/-- Model of align_reads_bwa.  Creates the output directory if missing;
aborts (with a bare return, so the Python value None) after logging an
error if read1 is not a file; otherwise builds the BWA index when any of
the five index files is missing, then always issues the bwa mem call.
The index build goes through subprocess.call and the aligner through
os.system, and neither result is inspected, so no exit-code oracle is
consulted. -/
def align_reads_bwa (bwa_dir ref_fa_file ref_index_name read1 read2 out_file
    n_threads read_group : String) (fs : FS) : Trace :=
  let made := if fs.existsPath (dirname out_file) then [] else [dirname out_file]
  if ¬ fs.isfile read1 then
    { dirsMade := made, invocations := [], infoLog := [],
      errLog := [("%s does not exists!", [read1])], printed := [], ret := none }
  else
    let idx_cmd := bwa_index_command bwa_dir ref_index_name ref_fa_file
    let aln_cmd := bwa_align_command bwa_dir n_threads read_group ref_index_name
        read1 read2 out_file
    if ¬ genomeIndexed fs ref_index_name then
      { dirsMade := made,
        invocations := [idx_cmd, aln_cmd],
        infoLog :=
          [("Genome index files are not detected. Running BWA to generate the required indices.", []),
           (idx_cmd, []),
           ("BWA genome index files are generated.", []),
           ("Running paired end mapping.", []),
           (aln_cmd, []),
           ("Paired end mapping finished.", [])],
        errLog := [], printed := [], ret := none }
    else
      { dirsMade := made,
        invocations := [aln_cmd],
        infoLog :=
          [("BWA genome index files exist.", []),
           ("Running paired end mapping.", []),
           (aln_cmd, []),
           ("Paired end mapping finished.", [])],
        errLog := [], printed := [], ret := none }

/-- Python exception kinds that modify_sam_location can raise. -/
inductive PyErr where
  | nameError
  | valueError
  | indexError
deriving DecidableEq

/-- Model of row.strip().split(): the strip removes leading and trailing
whitespace and the no-argument split then cuts at whitespace runs,
producing no empty fields, which is exactly the whitespace-run split. -/
def pySplit (s : String) : List String :=
  (wsSplitChars s.data []).map String.mk

/-- Processing of one input row by modify_sam_location, exactly as the
source executes it: header rows (first character at-sign) and rows whose
third field is the unmapped marker are written through unchanged; for
any other row the source unpacks the third field on underscores (a
ValueError unless exactly three parts) and then evaluates int(v[3])
where no variable v is defined, raising a NameError before anything is
written for that row.  An empty row raises an IndexError at row[0], as
does a row with fewer than three fields at items[2]. -/
def modify_sam_row (row : String) : Except PyErr String :=
  if row = "" then .error .indexError
  else if firstCharIs row '@' then .ok row
  else
    match pySplit row with
    | _f0 :: _f1 :: rname :: _rest =>
      if rname = "*" then .ok row
      else if (pySplitOn rname "_").length = 3 then .error .nameError
      else .error .valueError
    | _ => .error .indexError

/-- Model of modify_sam_location: rows are processed in order and the
rows written so far are lost to the caller once a row raises (the
uncaught exception propagates). -/
def modify_sam_location : List String → Except PyErr (List String)
  | [] => .ok []
  | row :: rest =>
    match modify_sam_row row with
    | .error e => .error e
    | .ok written =>
      match modify_sam_location rest with
      | .error e => .error e
      | .ok outs => .ok (written :: outs)

/- ------------------------------------------------------------------ -/
/- germline_variant_calling_GATK_zhengu_20180103.py                    -/
/- ------------------------------------------------------------------ -/

/-- The Picard SortSam command string built by sort_sam_picard. -/
def command_sort (picard_dir input_sam output_bam : String) : String :=
  "java -jar " ++ picard_dir ++ " SortSam INPUT=" ++ input_sam ++ " OUTPUT="
    ++ output_bam ++ " SORT_ORDER=coordinate"

/-- The Picard BuildBamIndex command string built by sort_sam_picard. -/
def command_index (picard_dir output_bam : String) : String :=
  "java -jar " ++ picard_dir ++ " BuildBamIndex INPUT=" ++ output_bam

/-- Model of sort_sam_picard: creates the output directory when missing,
checks the input SAM exists (otherwise logs, prints and returns 1),
runs SortSam, returns 1 if it exits nonzero, otherwise runs
BuildBamIndex, returns 1 if it exits nonzero and 0 otherwise.  The
argument to the %f info format, an int in the source, is recorded by its
decimal rendering. -/
def sort_sam_picard (picard_dir input_sam output_bam : String) (fs : FS)
    (child_of : String → Child) : Trace :=
  let made := if fs.existsPath (dirname output_bam) then [] else [dirname output_bam]
  if ¬ fs.isfile input_sam then
    { dirsMade := made, invocations := [], infoLog := [],
      errLog := [("%s does not exists!", [input_sam])],
      printed := [("%s does not exists!", [input_sam])],
      ret := some 1 }
  else
    let cs := command_sort picard_dir input_sam output_bam
    let rs := run_shell_command cs (child_of cs)
    if rs.ret ≠ 0 then
      { dirsMade := made, invocations := [cs],
        infoLog := rs.infoLines
          ++ [("Finished sorting SAM with return value %f.", [toString rs.ret])],
        errLog := rs.errLines ++ [("Picard sorting returns non-zero value.", [])],
        printed := [("Picard sorting returns non-zero value! Check the input format and/or the logging files.", [])],
        ret := some 1 }
    else
      let ci := command_index picard_dir output_bam
      let ri := run_shell_command ci (child_of ci)
      if ri.ret ≠ 0 then
        { dirsMade := made, invocations := [cs, ci],
          infoLog := rs.infoLines
            ++ [("Finished sorting SAM with return value %f.", [toString rs.ret]),
                ("Finished Picard sorting step.", [])]
            ++ ri.infoLines,
          errLog := rs.errLines ++ ri.errLines
            ++ [("Picard indexing returns non-zero value.", [])],
          printed := [("Finished Picard sorting step.", []),
                      ("Picard indexing returns non-zero value! Check the input format and/or the logging files.", [])],
          ret := some 1 }
      else
        { dirsMade := made, invocations := [cs, ci],
          infoLog := rs.infoLines
            ++ [("Finished sorting SAM with return value %f.", [toString rs.ret]),
                ("Finished Picard sorting step.", [])]
            ++ ri.infoLines,
          errLog := rs.errLines ++ ri.errLines,
          printed := [("Finished Picard sorting step.", [])],
          ret := some 0 }

/-- The prefix_name computed by recalibrate_base_quality_scores:
sorted_bam.split("_aligned")[0]. -/
def recal_prefix_name (sorted_bam : String) : String :=
  (pySplitOn sorted_bam "_aligned").headD ""

/-- The full sorted-alignment path used by
recalibrate_base_quality_scores: align_dir + sorted_bam. -/
def recal_sorted_bam_full (align_dir sorted_bam : String) : String :=
  align_dir ++ sorted_bam

/-- The recalibration table path of recalibrate_base_quality_scores. -/
def recal_table_path (align_dir sorted_bam : String) : String :=
  align_dir ++ recal_prefix_name sorted_bam ++ "_recal.table"

/-- The post-recalibration table path. -/
def recal_post_table_path (align_dir sorted_bam : String) : String :=
  align_dir ++ recal_prefix_name sorted_bam ++ "_recal_post.table"

/-- Step-1 command of recalibrate_base_quality_scores (first
BaseRecalibrator pass; the five inner spaces come from the backslash
line continuation inside the source string literal). -/
def recal_cmd1 (gatk_dir ref_fa_file sorted_bam : String) (knownsites : List String)
    (align_dir : String) : String :=
  (List.foldl (fun c k => c ++ " -knownSites " ++ k)
      ("java -jar " ++ gatk_dir ++ " -T BaseRecalibrator     -R " ++ ref_fa_file
        ++ " -I " ++ recal_sorted_bam_full align_dir sorted_bam)
      knownsites)
    ++ " -o " ++ recal_table_path align_dir sorted_bam

/-- Step-2 command (second BaseRecalibrator pass over the step-1 table). -/
def recal_cmd2 (gatk_dir ref_fa_file sorted_bam : String) (knownsites : List String)
    (align_dir : String) : String :=
  (List.foldl (fun c k => c ++ " -knownSites " ++ k)
      ("java -jar " ++ gatk_dir ++ " -T BaseRecalibrator -R " ++ ref_fa_file
        ++ "     -I " ++ recal_sorted_bam_full align_dir sorted_bam)
      knownsites)
    ++ " -BQSR " ++ recal_table_path align_dir sorted_bam
    ++ " -o " ++ recal_post_table_path align_dir sorted_bam

/-- Step-3 command (AnalyzeCovariates plot generation). -/
def recal_cmd3 (gatk_dir ref_fa_file sorted_bam align_dir : String) : String :=
  "java -jar " ++ gatk_dir ++ " -T AnalyzeCovariates -R " ++ ref_fa_file
    ++ " -before " ++ recal_table_path align_dir sorted_bam
    ++ " -after " ++ recal_post_table_path align_dir sorted_bam
    ++ "     -plots " ++ (align_dir ++ recal_prefix_name sorted_bam ++ "_recal_plots.pdf")

/-- Step-4 command (PrintReads application of the recalibration table). -/
def recal_cmd4 (gatk_dir ref_fa_file sorted_bam : String) (align_dir : String) : String :=
  "java -jar " ++ gatk_dir ++ " -T PrintReads -R " ++ ref_fa_file
    ++ " -I " ++ recal_sorted_bam_full align_dir sorted_bam
    ++ " -BQSR " ++ recal_table_path align_dir sorted_bam
    ++ " -o " ++ (align_dir ++ recal_prefix_name sorted_bam ++ "_recal.bam")

/-- Model of recalibrate_base_quality_scores: one existence check on the
sorted alignment up front, then the four GATK steps in order, each run
through run_shell_command; the first step whose exit code is nonzero
makes the stage log and print a step-specific message and return 1;
when all four succeed the stage returns 0. -/
def recalibrate_base_quality_scores (gatk_dir ref_fa_file sorted_bam : String)
    (knownsites : List String) (align_dir : String) (fs : FS)
    (child_of : String → Child) : Trace :=
  let made := if fs.existsPath align_dir then [] else [align_dir]
  if ¬ fs.isfile (recal_sorted_bam_full align_dir sorted_bam) then
    { dirsMade := made, invocations := [], infoLog := [],
      errLog := [("%s does not exists!", [recal_sorted_bam_full align_dir sorted_bam])],
      printed := [("%s does not exists!", [recal_sorted_bam_full align_dir sorted_bam])],
      ret := some 1 }
  else
    let c1 := recal_cmd1 gatk_dir ref_fa_file sorted_bam knownsites align_dir
    let r1 := run_shell_command c1 (child_of c1)
    if r1.ret ≠ 0 then
      { dirsMade := made, invocations := [c1],
        infoLog := r1.infoLines,
        errLog := r1.errLines ++ [("BQSR failed at covariation analysis stage.", [])],
        printed := [("BQSR failed at covariation analysis stage.", [])],
        ret := some 1 }
    else
      let c2 := recal_cmd2 gatk_dir ref_fa_file sorted_bam knownsites align_dir
      let r2 := run_shell_command c2 (child_of c2)
      if r2.ret ≠ 0 then
        { dirsMade := made, invocations := [c1, c2],
          infoLog := r1.infoLines ++ r2.infoLines,
          errLog := r1.errLines ++ r2.errLines
            ++ [("BQSR failed at the second pass for covariation analysis.", [])],
          printed := [("BQSR failed at the second pass for covariation analysis.", [])],
          ret := some 1 }
      else
        let c3 := recal_cmd3 gatk_dir ref_fa_file sorted_bam align_dir
        let r3 := run_shell_command c3 (child_of c3)
        if r3.ret ≠ 0 then
          { dirsMade := made, invocations := [c1, c2, c3],
            infoLog := r1.infoLines ++ r2.infoLines ++ r3.infoLines,
            errLog := r1.errLines ++ r2.errLines ++ r3.errLines
              ++ [("BQSR failed at the ploting stage.", [])],
            printed := [("BQSR failed at the ploting stage.", [])],
            ret := some 1 }
        else
          let c4 := recal_cmd4 gatk_dir ref_fa_file sorted_bam align_dir
          let r4 := run_shell_command c4 (child_of c4)
          if r4.ret ≠ 0 then
            { dirsMade := made, invocations := [c1, c2, c3, c4],
              infoLog := r1.infoLines ++ r2.infoLines ++ r3.infoLines ++ r4.infoLines,
              errLog := r1.errLines ++ r2.errLines ++ r3.errLines ++ r4.errLines
                ++ [("BQSR failed at the final application stage.", [])],
              printed := [("BQSR failed at the final application stage.", [])],
              ret := some 1 }
          else
            { dirsMade := made, invocations := [c1, c2, c3, c4],
              infoLog := r1.infoLines ++ r2.infoLines ++ r3.infoLines ++ r4.infoLines,
              errLog := r1.errLines ++ r2.errLines ++ r3.errLines ++ r4.errLines,
              printed := [],
              ret := some 0 }

/-- The samp_name computed by call_variants:
recal_bam.split("/")[-1].split("_recal.bam")[0]. -/
def hc_samp_name (recal_bam : String) : String :=
  (pySplitOn ((pySplitOn recal_bam "/").getLastD "") "_recal.bam").headD ""

/-- The per-sample GVCF output path written by call_variants:
out_dir + samp_name + "_raw_variants.g.vcf". -/
def hc_output_path (recal_bam out_dir : String) : String :=
  out_dir ++ hc_samp_name recal_bam ++ "_raw_variants.g.vcf"

/-- The HaplotypeCaller command string built by call_variants. -/
def command_call_var (gatk_dir ref_fa_file recal_bam threshold_call out_dir : String) :
    String :=
  "java -jar " ++ gatk_dir ++ " -T HaplotypeCaller -R " ++ ref_fa_file
    ++ " -I " ++ recal_bam ++ " --genotyping_mode DISCOVERY     -stand_call_conf "
    ++ threshold_call ++ " --emitRefConfidence GVCF -o "
    ++ hc_output_path recal_bam out_dir

/-- Model of call_variants: creates the output directory when missing,
checks the recalibrated alignment exists (otherwise logs, prints and
returns 1), runs HaplotypeCaller, and returns 1 on a nonzero exit code
and 0 otherwise. -/
def call_variants (gatk_dir ref_fa_file recal_bam threshold_call out_dir : String)
    (fs : FS) (child_of : String → Child) : Trace :=
  let made := if fs.existsPath out_dir then [] else [out_dir]
  if ¬ fs.isfile recal_bam then
    { dirsMade := made, invocations := [], infoLog := [],
      errLog := [("%s does not exists!", [recal_bam])],
      printed := [("%s does not exists!", [recal_bam])],
      ret := some 1 }
  else
    let cv := command_call_var gatk_dir ref_fa_file recal_bam threshold_call out_dir
    let rv := run_shell_command cv (child_of cv)
    if rv.ret ≠ 0 then
      { dirsMade := made, invocations := [cv],
        infoLog := rv.infoLines,
        errLog := rv.errLines ++ [("HaplotypeCaller failed.", [])],
        printed := [("HaplotypeCaller failed.", [])],
        ret := some 1 }
    else
      { dirsMade := made, invocations := [cv],
        infoLog := rv.infoLines,
        errLog := rv.errLines,
        printed := [],
        ret := some 0 }

/-- The configuration values main reads from configure.yaml, already
resolved to strings as the source concatenates them. -/
structure GermlineConfig where
  picard_dir : String
  gatk_dir : String
  ref_seq : String
  align_dir : String
  thres_call : String
  out_dir : String
  sample_name : String
  knownsites : List String

/-- One run of the germline-calling main: the sorting-stage trace, the
recalibration and variant-calling traces when those stages were reached
(none records that the stage was never invoked), and the value main
returns (none models falling off the end of the function body). -/
structure MainRun where
  tSort : Trace
  tRecal : Option Trace
  tCall : Option Trace
  ret : Option Int

/-- Model of main in the germline-calling script: sort, then
recalibrate, then call variants, each stage entered only when the
previous one returned 0; main returns 1, 2 or 3 when the sorting,
recalibration or calling stage respectively returns nonzero, and falls
off the end (None) when all three succeed. -/
def germline_main (cfg : GermlineConfig) (fs : FS) (child_of : String → Child) :
    MainRun :=
  let input_sam := cfg.align_dir ++ cfg.sample_name ++ "_aligned.sam"
  let sorted_bam := cfg.align_dir ++ cfg.sample_name ++ "_aligned_sorted.bam"
  let tSort := sort_sam_picard cfg.picard_dir input_sam sorted_bam fs child_of
  if tSort.ret ≠ some 0 then
    { tSort := tSort, tRecal := none, tCall := none, ret := some 1 }
  else
    let sorted_bam_name := cfg.sample_name ++ "_aligned_sorted.bam"
    let tRecal := recalibrate_base_quality_scores cfg.gatk_dir cfg.ref_seq
        sorted_bam_name cfg.knownsites cfg.align_dir fs child_of
    if tRecal.ret ≠ some 0 then
      { tSort := tSort, tRecal := some tRecal, tCall := none, ret := some 2 }
    else
      let recal_bam := cfg.align_dir ++ cfg.sample_name ++ "_recal.bam"
      let tCall := call_variants cfg.gatk_dir cfg.ref_seq recal_bam cfg.thres_call
          cfg.out_dir fs child_of
      if tCall.ret ≠ some 0 then
        { tSort := tSort, tRecal := some tRecal, tCall := some tCall, ret := some 3 }
      else
        { tSort := tSort, tRecal := some tRecal, tCall := some tCall, ret := none }

/- ------------------------------------------------------------------ -/
/- genotype_joining_GATK_zhengu_20171211.py                            -/
/- ------------------------------------------------------------------ -/

/-- The pieces concatenated into the GenotypeGVCFs command of
gather_gvcfs: the fixed flags, one --variant separator between
consecutive per-sample GVCF paths, and the joint output path.  The
source builds the same text by joining the list and then applying
str.format for the four fixed slots. -/
def joint_pieces (gatk_dir ref_seq thres_call : String) (gvcf_list : List String)
    (variants_dir out_name : String) : List String :=
  ["java -jar ", gatk_dir, " -T GenotypeGVCFs -R ", ref_seq, " -stand_call_conf ",
   thres_call, " --variant "]
  ++ List.intersperse " --variant " gvcf_list
  ++ [" -o ", variants_dir ++ out_name ++ ".vcf"]

/-- The GenotypeGVCFs command string built by gather_gvcfs. -/
def command_joint (gatk_dir ref_seq thres_call : String) (gvcf_list : List String)
    (variants_dir out_name : String) : String :=
  String.join (joint_pieces gatk_dir ref_seq thres_call gvcf_list variants_dir out_name)

/-- Model of gather_gvcfs: when the variants directory does not exist it
logs the directory to the error logger, prints a fixed message (whose
%s placeholder the source never fills: print is called with the literal
format string and no argument) and returns 1 without running anything;
otherwise it runs the single joint GenotypeGVCFs command and returns 1
on a nonzero exit code and 0 otherwise. -/
def gather_gvcfs (gatk_dir ref_seq : String) (gvcf_list : List String)
    (variants_dir out_name thres_call : String) (fs : FS)
    (child_of : String → Child) : Trace :=
  if ¬ fs.existsPath variants_dir then
    { dirsMade := [], invocations := [], infoLog := [],
      errLog := [("The directory %s does not exist!", [variants_dir])],
      printed := [("ERROR:: The directory %s does not exist! Please check the correctness of input. Make sure the GVCF files are contained in the directory.", [])],
      ret := some 1 }
  else
    let cj := command_joint gatk_dir ref_seq thres_call gvcf_list variants_dir out_name
    let rj := run_shell_command cj (child_of cj)
    if rj.ret ≠ 0 then
      { dirsMade := [], invocations := [cj],
        infoLog := rj.infoLines,
        errLog := rj.errLines ++ [("GVCFs joining returns non-zero value.", [])],
        printed := [("GVCFs joining returns non-zero value.", [])],
        ret := some 1 }
    else
      { dirsMade := [], invocations := [cj],
        infoLog := rj.infoLines,
        errLog := rj.errLines,
        printed := [],
        ret := some 0 }

/-- The recalibrated-alignment path the germline main hands to
call_variants: align_dir + sample_name + "_recal.bam". -/
def germline_recal_bam_path (align_dir sample_name : String) : String :=
  align_dir ++ sample_name ++ "_recal.bam"

/-- The per-sample GVCF path actually written by the variant-calling
stage when invoked from the germline main (out_dir here is the
snv_calling output_dir configuration value, used as-is). -/
def germline_gvcf_output_path (align_dir sample_name snv_out_dir : String) : String :=
  hc_output_path (germline_recal_bam_path align_dir sample_name) snv_out_dir

/-- The variants directory computed by the genotype-joining main:
input_data input_dir + snv_calling output_dir. -/
def genotype_variants_dir (input_dir snv_out_dir : String) : String :=
  input_dir ++ snv_out_dir

/-- The per-sample GVCF path the genotype-joining main reads for a
sample: variants_dir + sample_name + ".g.vcf". -/
def genotype_gvcf_path (input_dir snv_out_dir sample_name : String) : String :=
  genotype_variants_dir input_dir snv_out_dir ++ sample_name ++ ".g.vcf"

/- ------------------------------------------------------------------ -/
/- Shared concrete fixtures                                            -/
/- ------------------------------------------------------------------ -/

/-- An empty filesystem. -/
def fsEmpty : FS := { files := [], dirs := [] }

/-- A child oracle under which every external command writes nothing and
exits with code 1. -/
def childFail : String → Child := fun _ => { writes := [], exitCode := 1 }

/-- A child oracle under which every external command writes nothing and
exits with code 0. -/
def childOk : String → Child := fun _ => { writes := [], exitCode := 0 }

/-- A small concrete germline configuration. -/
def cfgEx : GermlineConfig :=
  { picard_dir := "p", gatk_dir := "g", ref_seq := "r", align_dir := "A/",
    thres_call := "10.0", out_dir := "V/", sample_name := "S", knownsites := ["k"] }

/- ------------------------------------------------------------------ -/
/- Claims                                                              -/
/- ------------------------------------------------------------------ -/

/-- C1: the germline orchestrator runs sort, recalibrate, call-variants
in that fixed order, enters a stage only when the previous stage
returned 0, and on the first nonzero stage result stops (the later
stage traces are none, so those stages were never invoked) and returns
1, 2 or 3 according to whether sorting, recalibration or variant
calling failed. -/
theorem c1_orchestrator_fail_fast (cfg : GermlineConfig) (fs : FS)
    (child_of : String → Child) :
    ((germline_main cfg fs child_of).tSort.ret ≠ some 0 →
      (germline_main cfg fs child_of).tRecal = none ∧
      (germline_main cfg fs child_of).tCall = none ∧
      (germline_main cfg fs child_of).ret = some 1) ∧
    (∀ tr, (germline_main cfg fs child_of).tRecal = some tr →
      (germline_main cfg fs child_of).tSort.ret = some 0) ∧
    (∀ tr, (germline_main cfg fs child_of).tRecal = some tr → tr.ret ≠ some 0 →
      (germline_main cfg fs child_of).tCall = none ∧
      (germline_main cfg fs child_of).ret = some 2) ∧
    (∀ tc, (germline_main cfg fs child_of).tCall = some tc →
      ∃ tr, (germline_main cfg fs child_of).tRecal = some tr ∧ tr.ret = some 0) ∧
    (∀ tc, (germline_main cfg fs child_of).tCall = some tc → tc.ret ≠ some 0 →
      (germline_main cfg fs child_of).ret = some 3) := by
  by_cases h1 : (sort_sam_picard cfg.picard_dir
      (cfg.align_dir ++ cfg.sample_name ++ "_aligned.sam")
      (cfg.align_dir ++ cfg.sample_name ++ "_aligned_sorted.bam") fs child_of).ret = some 0
  · by_cases h2 : (recalibrate_base_quality_scores cfg.gatk_dir cfg.ref_seq
        (cfg.sample_name ++ "_aligned_sorted.bam") cfg.knownsites cfg.align_dir fs
        child_of).ret = some 0
    · by_cases h3 : (call_variants cfg.gatk_dir cfg.ref_seq
          (cfg.align_dir ++ cfg.sample_name ++ "_recal.bam") cfg.thres_call
          cfg.out_dir fs child_of).ret = some 0
      · simp [germline_main, h1, h2, h3]
      · simp [germline_main, h1, h2, h3]
    · simp [germline_main, h1, h2]
  · simp [germline_main, h1]

/-- C1 witness: on the empty filesystem the sorting stage fails (missing
input), the recalibration and calling stages are never invoked, and the
orchestrator returns 1. -/
theorem c1_orchestrator_fail_fast_witness :
    (germline_main cfgEx fsEmpty childFail).tRecal = none ∧
    (germline_main cfgEx fsEmpty childFail).tCall = none ∧
    (germline_main cfgEx fsEmpty childFail).ret = some 1 :=
  (c1_orchestrator_fail_fast cfgEx fsEmpty childFail).1 (by decide)

/-- C2: evaluating run_shell_command on a child that writes one line to
standard error and exits with code 5 shows the line being forwarded to
the informational channel (after the logged command line) and the error
channel receiving nothing, because stderr=subprocess.STDOUT merges the
standard-error stream into the captured standard output; the exit code
is returned verbatim.  This contradicts the claim that standard-error
lines are forwarded only to the error log channel. -/
theorem c2_stderr_merged_into_info_channel :
    run_shell_command "tool arg" { writes := [(Chan.err, "boom")], exitCode := 5 } =
      { infoLines := [("tool arg", []), ("boom", [])], errLines := [], ret := 5 } := rfl

/-- C3: evaluating modify_sam_location shows header rows and unmapped
rows passing through unchanged, but the first record whose reference
name has the chrom_start_stop form makes the code raise a NameError
(the source reads int(v[3]) where no variable v exists) instead of
writing the remapped record, so the claimed remap of chr2_1000_2000 at
position 50 to chr2 at 1049 never happens. -/
theorem c3_remap_raises_on_mapped_record :
    modify_sam_location ["@HD VN:1.6", "r1 0 * 0 0"] =
      Except.ok ["@HD VN:1.6", "r1 0 * 0 0"] ∧
    modify_sam_location ["r1 0 chr2_1000_2000 50 60"] =
      Except.error PyErr.nameError := ⟨rfl, rfl⟩

/-- C9: at a concrete configuration (input_dir "data/", alignment output
directory "data/align/", snv_calling output_dir "vcf/", sample "S1")
the per-sample GVCF path written by the variant-calling stage is
"vcf/S1_raw_variants.g.vcf" while the genotype-joining main reads
"data/vcf/S1.g.vcf" for the same sample: the two paths differ, so the
output of the calling stage is not the declared input of the joining
stage. -/
theorem c9_gvcf_path_mismatch :
    germline_gvcf_output_path "data/align/" "S1" "vcf/" = "vcf/S1_raw_variants.g.vcf" ∧
    genotype_gvcf_path "data/" "vcf/" "S1" = "data/vcf/S1.g.vcf" ∧
    ¬ germline_gvcf_output_path "data/align/" "S1" "vcf/"
        = genotype_gvcf_path "data/" "vcf/" "S1" := by
  refine ⟨rfl, rfl, ?_⟩
  decide

/-- Helper: the genome_indexed flag is true exactly when every expected
index file exists. -/
theorem genomeIndexed_iff (fs : FS) (r : String) :
    genomeIndexed fs r = true ↔
      ∀ extn ∈ index_files_extensions, fs.isfile (r ++ extn) = true := by
  simp [genomeIndexed, List.all_eq_true]

/-- A filesystem holding exactly the first read file. -/
def fsR1 : FS := { files := ["r1"], dirs := [] }

/-- C4: when the first read file exists, the alignment stage issues the
index-build command exactly once and before the aligner invocation if
and only if at least one of the five expected index files is missing;
when all five exist the invocation list holds only the aligner call and
the informational log records the skip. -/
theorem c4_index_build_iff_missing (bwa_dir ref_fa_file ref_index_name read1 read2
    out_file n_threads read_group : String) (fs : FS) (h1 : fs.isfile read1 = true) :
    ((∃ extn ∈ index_files_extensions, fs.isfile (ref_index_name ++ extn) = false) →
      (align_reads_bwa bwa_dir ref_fa_file ref_index_name read1 read2 out_file
          n_threads read_group fs).invocations
        = [bwa_index_command bwa_dir ref_index_name ref_fa_file,
           bwa_align_command bwa_dir n_threads read_group ref_index_name read1 read2 out_file]) ∧
    ((∀ extn ∈ index_files_extensions, fs.isfile (ref_index_name ++ extn) = true) →
      (align_reads_bwa bwa_dir ref_fa_file ref_index_name read1 read2 out_file
          n_threads read_group fs).invocations
        = [bwa_align_command bwa_dir n_threads read_group ref_index_name read1 read2 out_file] ∧
      ("BWA genome index files exist.", ([] : List String)) ∈
        (align_reads_bwa bwa_dir ref_fa_file ref_index_name read1 read2 out_file
          n_threads read_group fs).infoLog) := by
  by_cases hg : genomeIndexed fs ref_index_name = true
  · refine ⟨?_, ?_⟩
    · rintro ⟨extn, hmem, hmiss⟩
      have := (genomeIndexed_iff fs ref_index_name).mp hg extn hmem
      rw [this] at hmiss
      cases hmiss
    · intro _
      simp [align_reads_bwa, h1, hg]
  · refine ⟨?_, ?_⟩
    · intro _
      simp [align_reads_bwa, h1, hg]
    · intro hall
      exact absurd ((genomeIndexed_iff fs ref_index_name).mpr hall) hg

/-- C4 witness: on a filesystem holding only the first read file, every
index file is missing and the stage issues exactly the index build
followed by the aligner call. -/
theorem c4_index_build_iff_missing_witness :
    (align_reads_bwa "b" "rf" "ri" "r1" "r2" "d/o" "4" "rg" fsR1).invocations
      = [bwa_index_command "b" "ri" "rf",
         bwa_align_command "b" "4" "rg" "ri" "r1" "r2" "d/o"] :=
  (c4_index_build_iff_missing "b" "rf" "ri" "r1" "r2" "d/o" "4" "rg" fsR1
      (by decide)).1 ⟨".pac", by decide, by decide⟩

/-- C10: whenever the first read file exists the aligner invocation is
issued (it is the last external command of the stage) and its command is
assembled from pieces that include the second read file path, while the
error log stays empty and the stage returns the Python value None —
all of this for an arbitrary filesystem, so in particular whether or not
the second read file exists. -/
theorem c10_read2_unchecked (bwa_dir ref_fa_file ref_index_name read1 read2 out_file
    n_threads read_group : String) (fs : FS) (h1 : fs.isfile read1 = true) :
    (align_reads_bwa bwa_dir ref_fa_file ref_index_name read1 read2 out_file
        n_threads read_group fs).invocations.getLastD ""
      = bwa_align_command bwa_dir n_threads read_group ref_index_name read1 read2 out_file ∧
    read2 ∈ bwa_align_pieces bwa_dir n_threads read_group ref_index_name read1 read2 out_file ∧
    (align_reads_bwa bwa_dir ref_fa_file ref_index_name read1 read2 out_file
        n_threads read_group fs).errLog = [] ∧
    (align_reads_bwa bwa_dir ref_fa_file ref_index_name read1 read2 out_file
        n_threads read_group fs).ret = none := by
  by_cases hg : genomeIndexed fs ref_index_name = true <;>
    simp [align_reads_bwa, h1, hg, bwa_align_pieces]

/-- C10 witness: with only the first read file on disk (the second read
file "r2" does not exist) the aligner still runs with "r2" among its
command pieces, nothing is logged to the error channel and the stage
returns None. -/
theorem c10_read2_unchecked_witness :
    fsR1.isfile "r2" = false ∧
    "r2" ∈ bwa_align_pieces "b" "4" "rg" "ri" "r1" "r2" "d/o" ∧
    (align_reads_bwa "b" "rf" "ri" "r1" "r2" "d/o" "4" "rg" fsR1).errLog = [] ∧
    (align_reads_bwa "b" "rf" "ri" "r1" "r2" "d/o" "4" "rg" fsR1).ret = none :=
  ⟨by decide,
   (c10_read2_unchecked "b" "rf" "ri" "r1" "r2" "d/o" "4" "rg" fsR1 (by decide)).2.1,
   (c10_read2_unchecked "b" "rf" "ri" "r1" "r2" "d/o" "4" "rg" fsR1 (by decide)).2.2.1,
   (c10_read2_unchecked "b" "rf" "ri" "r1" "r2" "d/o" "4" "rg" fsR1 (by decide)).2.2.2⟩

/-- C5 counterexample: on an empty filesystem the alignment stage skips
the external tool but returns the Python value None, not a nonzero
failure result, so the caller receives no MissingInput failure signal
from this stage. -/
theorem c5_alignment_returns_no_code :
    (align_reads_bwa "b" "rf" "ri" "r1" "r2" "d/o" "4" "rg" fsEmpty).invocations = [] ∧
    (align_reads_bwa "b" "rf" "ri" "r1" "r2" "d/o" "4" "rg" fsEmpty).ret = none ∧
    ¬ (∃ c : Int, (align_reads_bwa "b" "rf" "ri" "r1" "r2" "d/o" "4" "rg" fsEmpty).ret
          = some c ∧ c ≠ 0) := by
  refine ⟨by decide, by decide, ?_⟩
  rintro ⟨c, hc, -⟩
  have hn : (align_reads_bwa "b" "rf" "ri" "r1" "r2" "d/o" "4" "rg" fsEmpty).ret = none := by
    decide
  rw [hn] at hc
  cases hc

/-- C5 amended: when its declared required input file is missing, each
stage skips the external tool entirely; the sorting, recalibration and
variant-calling stages then return the failure code 1, while the
alignment stage only logs the missing file and returns None (no failure
value reaches its caller). -/
theorem c5_missing_input_amended (bwa_dir ref_fa_file ref_index_name read1 read2
    out_file n_threads read_group picard_dir input_sam output_bam gatk_dir sorted_bam
    align_dir recal_bam threshold_call out_dir : String) (knownsites : List String)
    (fs : FS) (child_of : String → Child) :
    (fs.isfile read1 = false →
      (align_reads_bwa bwa_dir ref_fa_file ref_index_name read1 read2 out_file
          n_threads read_group fs).invocations = [] ∧
      (align_reads_bwa bwa_dir ref_fa_file ref_index_name read1 read2 out_file
          n_threads read_group fs).ret = none ∧
      ("%s does not exists!", [read1]) ∈
        (align_reads_bwa bwa_dir ref_fa_file ref_index_name read1 read2 out_file
          n_threads read_group fs).errLog) ∧
    (fs.isfile input_sam = false →
      (sort_sam_picard picard_dir input_sam output_bam fs child_of).invocations = [] ∧
      (sort_sam_picard picard_dir input_sam output_bam fs child_of).ret = some 1) ∧
    (fs.isfile (recal_sorted_bam_full align_dir sorted_bam) = false →
      (recalibrate_base_quality_scores gatk_dir ref_fa_file sorted_bam knownsites
          align_dir fs child_of).invocations = [] ∧
      (recalibrate_base_quality_scores gatk_dir ref_fa_file sorted_bam knownsites
          align_dir fs child_of).ret = some 1) ∧
    (fs.isfile recal_bam = false →
      (call_variants gatk_dir ref_fa_file recal_bam threshold_call out_dir fs
          child_of).invocations = [] ∧
      (call_variants gatk_dir ref_fa_file recal_bam threshold_call out_dir fs
          child_of).ret = some 1) := by
  refine ⟨fun h => ?_, fun h => ?_, fun h => ?_, fun h => ?_⟩
  · simp [align_reads_bwa, h]
  · simp [sort_sam_picard, h]
  · simp [recalibrate_base_quality_scores, h]
  · simp [call_variants, h]

/-- C5 amended witness: the sorting stage on an empty filesystem issues
no invocation and returns 1. -/
theorem c5_missing_input_amended_witness :
    (sort_sam_picard "p" "in.sam" "d/out.bam" fsEmpty childFail).invocations = [] ∧
    (sort_sam_picard "p" "in.sam" "d/out.bam" fsEmpty childFail).ret = some 1 :=
  (c5_missing_input_amended "b" "rf" "ri" "r1" "r2" "d/o" "4" "rg" "p" "in.sam"
      "d/out.bam" "g" "sb" "A/" "rb" "10.0" "V/" ["k"] fsEmpty childFail).2.1 (by decide)

/-- A filesystem holding the sorted alignment used by the concrete BQSR
runs (and its directory), but none of the intermediate tables. -/
def fsC6 : FS := { files := ["A/S_aligned_sorted.bam"], dirs := ["A/"] }

/-- The concrete step-1 BaseRecalibrator command of the fsC6 scenario. -/
def c6_cmd1 : String := recal_cmd1 "g" "r" "S_aligned_sorted.bam" ["k"] "A/"

/-- A child oracle under which exactly the concrete step-1 command
succeeds and every other command exits with code 1. -/
def childOkStep1 : String → Child := fun c =>
  if c = c6_cmd1 then { writes := [], exitCode := 0 } else { writes := [], exitCode := 1 }

/-- C6 counterexample: two BQSR runs that fail at different steps (the
first fails at step 1, having issued one command; the second fails at
step 2, having issued two commands) both return the same code 1, so the
return value does not distinguish the failing step; moreover the second
run launches step 2 although the step-1 output table it consumes is not
a file on fsC6, so no per-step input-existence check happens. -/
theorem c6_steps_share_failure_code :
    (recalibrate_base_quality_scores "g" "r" "S_aligned_sorted.bam" ["k"] "A/" fsC6
        childFail).invocations.length = 1 ∧
    (recalibrate_base_quality_scores "g" "r" "S_aligned_sorted.bam" ["k"] "A/" fsC6
        childOkStep1).invocations.length = 2 ∧
    fsC6.isfile (recal_table_path "A/" "S_aligned_sorted.bam") = false ∧
    (recalibrate_base_quality_scores "g" "r" "S_aligned_sorted.bam" ["k"] "A/" fsC6
        childFail).ret = some 1 ∧
    (recalibrate_base_quality_scores "g" "r" "S_aligned_sorted.bam" ["k"] "A/" fsC6
        childOkStep1).ret = some 1 := by
  decide

/-- C6 amended: the recalibration stage checks only the sorted
alignment's existence, once, before step 1; it aborts at the first step
whose invocation exits nonzero — later steps are never invoked — and
returns 1 whichever step failed, the failing step being identified only
by the step-specific error-log message; when all four steps succeed it
returns 0. -/
theorem c6_fail_fast_amended (gatk_dir ref_fa_file sorted_bam : String)
    (knownsites : List String) (align_dir : String) (fs : FS)
    (child_of : String → Child)
    (h : fs.isfile (recal_sorted_bam_full align_dir sorted_bam) = true) :
    ((child_of (recal_cmd1 gatk_dir ref_fa_file sorted_bam knownsites align_dir)).exitCode ≠ 0 →
      (recalibrate_base_quality_scores gatk_dir ref_fa_file sorted_bam knownsites
          align_dir fs child_of).invocations
        = [recal_cmd1 gatk_dir ref_fa_file sorted_bam knownsites align_dir] ∧
      (recalibrate_base_quality_scores gatk_dir ref_fa_file sorted_bam knownsites
          align_dir fs child_of).ret = some 1 ∧
      ("BQSR failed at covariation analysis stage.", ([] : List String)) ∈
        (recalibrate_base_quality_scores gatk_dir ref_fa_file sorted_bam knownsites
          align_dir fs child_of).errLog) ∧
    ((child_of (recal_cmd1 gatk_dir ref_fa_file sorted_bam knownsites align_dir)).exitCode = 0 →
     (child_of (recal_cmd2 gatk_dir ref_fa_file sorted_bam knownsites align_dir)).exitCode ≠ 0 →
      (recalibrate_base_quality_scores gatk_dir ref_fa_file sorted_bam knownsites
          align_dir fs child_of).invocations
        = [recal_cmd1 gatk_dir ref_fa_file sorted_bam knownsites align_dir,
           recal_cmd2 gatk_dir ref_fa_file sorted_bam knownsites align_dir] ∧
      (recalibrate_base_quality_scores gatk_dir ref_fa_file sorted_bam knownsites
          align_dir fs child_of).ret = some 1 ∧
      ("BQSR failed at the second pass for covariation analysis.", ([] : List String)) ∈
        (recalibrate_base_quality_scores gatk_dir ref_fa_file sorted_bam knownsites
          align_dir fs child_of).errLog) ∧
    ((child_of (recal_cmd1 gatk_dir ref_fa_file sorted_bam knownsites align_dir)).exitCode = 0 →
     (child_of (recal_cmd2 gatk_dir ref_fa_file sorted_bam knownsites align_dir)).exitCode = 0 →
     (child_of (recal_cmd3 gatk_dir ref_fa_file sorted_bam align_dir)).exitCode ≠ 0 →
      (recalibrate_base_quality_scores gatk_dir ref_fa_file sorted_bam knownsites
          align_dir fs child_of).invocations
        = [recal_cmd1 gatk_dir ref_fa_file sorted_bam knownsites align_dir,
           recal_cmd2 gatk_dir ref_fa_file sorted_bam knownsites align_dir,
           recal_cmd3 gatk_dir ref_fa_file sorted_bam align_dir] ∧
      (recalibrate_base_quality_scores gatk_dir ref_fa_file sorted_bam knownsites
          align_dir fs child_of).ret = some 1 ∧
      ("BQSR failed at the ploting stage.", ([] : List String)) ∈
        (recalibrate_base_quality_scores gatk_dir ref_fa_file sorted_bam knownsites
          align_dir fs child_of).errLog) ∧
    ((child_of (recal_cmd1 gatk_dir ref_fa_file sorted_bam knownsites align_dir)).exitCode = 0 →
     (child_of (recal_cmd2 gatk_dir ref_fa_file sorted_bam knownsites align_dir)).exitCode = 0 →
     (child_of (recal_cmd3 gatk_dir ref_fa_file sorted_bam align_dir)).exitCode = 0 →
     (child_of (recal_cmd4 gatk_dir ref_fa_file sorted_bam align_dir)).exitCode ≠ 0 →
      (recalibrate_base_quality_scores gatk_dir ref_fa_file sorted_bam knownsites
          align_dir fs child_of).invocations
        = [recal_cmd1 gatk_dir ref_fa_file sorted_bam knownsites align_dir,
           recal_cmd2 gatk_dir ref_fa_file sorted_bam knownsites align_dir,
           recal_cmd3 gatk_dir ref_fa_file sorted_bam align_dir,
           recal_cmd4 gatk_dir ref_fa_file sorted_bam align_dir] ∧
      (recalibrate_base_quality_scores gatk_dir ref_fa_file sorted_bam knownsites
          align_dir fs child_of).ret = some 1 ∧
      ("BQSR failed at the final application stage.", ([] : List String)) ∈
        (recalibrate_base_quality_scores gatk_dir ref_fa_file sorted_bam knownsites
          align_dir fs child_of).errLog) ∧
    ((child_of (recal_cmd1 gatk_dir ref_fa_file sorted_bam knownsites align_dir)).exitCode = 0 →
     (child_of (recal_cmd2 gatk_dir ref_fa_file sorted_bam knownsites align_dir)).exitCode = 0 →
     (child_of (recal_cmd3 gatk_dir ref_fa_file sorted_bam align_dir)).exitCode = 0 →
     (child_of (recal_cmd4 gatk_dir ref_fa_file sorted_bam align_dir)).exitCode = 0 →
      (recalibrate_base_quality_scores gatk_dir ref_fa_file sorted_bam knownsites
          align_dir fs child_of).ret = some 0) := by
  refine ⟨?_, ?_, ?_, ?_, ?_⟩
  · intro h1
    simp [recalibrate_base_quality_scores, run_shell_command, h, h1]
  · intro h1 h2
    simp [recalibrate_base_quality_scores, run_shell_command, h, h1, h2]
  · intro h1 h2 h3
    simp [recalibrate_base_quality_scores, run_shell_command, h, h1, h2, h3]
  · intro h1 h2 h3 h4
    simp [recalibrate_base_quality_scores, run_shell_command, h, h1, h2, h3, h4]
  · intro h1 h2 h3 h4
    simp [recalibrate_base_quality_scores, run_shell_command, h, h1, h2, h3, h4]

/-- C6 amended witness: with the sorted alignment present and every
command failing, the stage stops after the single step-1 invocation,
returns 1 and logs the step-1 message. -/
theorem c6_fail_fast_amended_witness :
    (recalibrate_base_quality_scores "g" "r" "S_aligned_sorted.bam" ["k"] "A/" fsC6
        childFail).invocations
      = [recal_cmd1 "g" "r" "S_aligned_sorted.bam" ["k"] "A/"] ∧
    (recalibrate_base_quality_scores "g" "r" "S_aligned_sorted.bam" ["k"] "A/" fsC6
        childFail).ret = some 1 ∧
    ("BQSR failed at covariation analysis stage.", ([] : List String)) ∈
      (recalibrate_base_quality_scores "g" "r" "S_aligned_sorted.bam" ["k"] "A/" fsC6
        childFail).errLog :=
  (c6_fail_fast_amended "g" "r" "S_aligned_sorted.bam" ["k"] "A/" fsC6 childFail
      (by decide)).1 (by decide)

/-- A filesystem holding only the input SAM file of the sorting stage. -/
def fsSam : FS := { files := ["in.sam"], dirs := [] }

/-- C7: with the input SAM present, if the SortSam invocation exits
nonzero the stage stops with only that invocation issued (BuildBamIndex
is never attempted) and returns 1; when SortSam exits 0 the stage issues
exactly SortSam followed by BuildBamIndex, so the index step is
attempted only after a successful sort. -/
theorem c7_sort_fail_fast (picard_dir input_sam output_bam : String) (fs : FS)
    (child_of : String → Child) (h : fs.isfile input_sam = true) :
    ((child_of (command_sort picard_dir input_sam output_bam)).exitCode ≠ 0 →
      (sort_sam_picard picard_dir input_sam output_bam fs child_of).invocations
        = [command_sort picard_dir input_sam output_bam] ∧
      (sort_sam_picard picard_dir input_sam output_bam fs child_of).ret = some 1) ∧
    ((child_of (command_sort picard_dir input_sam output_bam)).exitCode = 0 →
      (sort_sam_picard picard_dir input_sam output_bam fs child_of).invocations
        = [command_sort picard_dir input_sam output_bam,
           command_index picard_dir output_bam]) := by
  constructor
  · intro h1
    simp [sort_sam_picard, run_shell_command, h, h1]
  · intro h1
    by_cases h2 : (child_of (command_index picard_dir output_bam)).exitCode = 0 <;>
      simp [sort_sam_picard, run_shell_command, h, h1, h2]

/-- C7 witness: with the input SAM present and every command failing,
the sorting stage issues only the SortSam command and returns 1. -/
theorem c7_sort_fail_fast_witness :
    (sort_sam_picard "p" "in.sam" "d/out.bam" fsSam childFail).invocations
      = [command_sort "p" "in.sam" "d/out.bam"] ∧
    (sort_sam_picard "p" "in.sam" "d/out.bam" fsSam childFail).ret = some 1 :=
  (c7_sort_fail_fast "p" "in.sam" "d/out.bam" fsSam childFail (by decide)).1 (by decide)

/-- Helper: every element of a list is an element of the list with a
separator interspersed. -/
theorem mem_intersperse_of_mem {α : Type} (sep : α) :
    ∀ (l : List α) (a : α), a ∈ l → a ∈ l.intersperse sep
  | [], a, ha => absurd ha (List.not_mem_nil a)
  | [x], a, ha => by
      have hx : (([x] : List α).intersperse sep) = [x] := rfl
      rw [hx]
      exact ha
  | x :: y :: rest, a, ha => by
      have hx : ((x :: y :: rest : List α).intersperse sep)
          = x :: sep :: ((y :: rest).intersperse sep) := rfl
      rw [hx]
      rcases List.mem_cons.mp ha with rfl | h2
      · exact List.mem_cons_self _ _
      · exact List.mem_cons_of_mem _
          (List.mem_cons_of_mem _ (mem_intersperse_of_mem sep (y :: rest) a h2))

/-- A filesystem holding only the variants directory. -/
def fsVdir : FS := { files := [], dirs := ["V/"] }

/-- C8: when the variants directory does not exist, gather_gvcfs issues
no invocation, returns 1, logs the missing directory to the error
channel and prints a user-facing message; when the directory exists it
issues exactly one GenotypeGVCFs invocation whose command pieces include
every per-sample GVCF path of the list. -/
theorem c8_gather_gvcfs_precondition (gatk_dir ref_seq : String)
    (gvcf_list : List String) (variants_dir out_name thres_call : String) (fs : FS)
    (child_of : String → Child) :
    (fs.existsPath variants_dir = false →
      (gather_gvcfs gatk_dir ref_seq gvcf_list variants_dir out_name thres_call fs
          child_of).invocations = [] ∧
      (gather_gvcfs gatk_dir ref_seq gvcf_list variants_dir out_name thres_call fs
          child_of).ret = some 1 ∧
      ("The directory %s does not exist!", [variants_dir]) ∈
        (gather_gvcfs gatk_dir ref_seq gvcf_list variants_dir out_name thres_call fs
          child_of).errLog ∧
      ("ERROR:: The directory %s does not exist! Please check the correctness of input. Make sure the GVCF files are contained in the directory.", ([] : List String)) ∈
        (gather_gvcfs gatk_dir ref_seq gvcf_list variants_dir out_name thres_call fs
          child_of).printed) ∧
    (fs.existsPath variants_dir = true →
      (gather_gvcfs gatk_dir ref_seq gvcf_list variants_dir out_name thres_call fs
          child_of).invocations
        = [command_joint gatk_dir ref_seq thres_call gvcf_list variants_dir out_name] ∧
      ∀ g ∈ gvcf_list,
        g ∈ joint_pieces gatk_dir ref_seq thres_call gvcf_list variants_dir out_name) := by
  constructor
  · intro h
    simp [gather_gvcfs, h]
  · intro h
    constructor
    · by_cases h2 : (child_of (command_joint gatk_dir ref_seq thres_call gvcf_list
          variants_dir out_name)).exitCode = 0 <;>
        simp [gather_gvcfs, run_shell_command, h, h2]
    · intro g hg
      have hmem := mem_intersperse_of_mem " --variant " gvcf_list g hg
      simp only [joint_pieces, List.mem_append, List.mem_cons]
      tauto

/-- C8 witness: with the variants directory present, the stage issues
exactly the joint command, and a concrete per-sample path appears among
its pieces. -/
theorem c8_gather_gvcfs_precondition_witness :
    (gather_gvcfs "g" "r" ["a.g.vcf", "b.g.vcf"] "V/" "joint" "10.0" fsVdir
        childOk).invocations
      = [command_joint "g" "r" "10.0" ["a.g.vcf", "b.g.vcf"] "V/" "joint"] ∧
    "b.g.vcf" ∈ joint_pieces "g" "r" "10.0" ["a.g.vcf", "b.g.vcf"] "V/" "joint" :=
  ⟨((c8_gather_gvcfs_precondition "g" "r" ["a.g.vcf", "b.g.vcf"] "V/" "joint" "10.0"
      fsVdir childOk).2 (by decide)).1,
   ((c8_gather_gvcfs_precondition "g" "r" ["a.g.vcf", "b.g.vcf"] "V/" "joint" "10.0"
      fsVdir childOk).2 (by decide)).2 "b.g.vcf" (by decide)⟩

end NGS
